import Mathlib

/-!
Verification of the weather-dashboard sky-rendering core.

The definitions below are a shallow embedding of the repository's
TypeScript source:

* `types/index.ts`   — `SkyCondition`, `weatherCodeToSkyCondition`;
* `lib/solar.ts`     — `calcSolarAltitude`, `altitudeToSkyPhase`;
* `components/SkyBackground.tsx` — `CONDITION_PALETTES`,
  `getSkyGradientByPhase`, `getOverlayConfig`, `getRainSpeed`,
  `adjustConditionByCloudCover`, and the effective-input resolution done
  by the `SkyBackground` component.

JavaScript numbers are modelled as rationals (`ℚ`) wherever the code only
does field arithmetic and comparisons, and as reals (`ℝ`) for the
trigonometric solar computation.  `undefined`-able values are `Option`s.
The repository file `components/SkyBackground.tsx` appears in three
revisions; we embed the final one (the revision with per-condition palette
comments and clear-only stars), whose interpolation and adjustment logic
is shared verbatim with the preceding revision.
-/

namespace WeatherDashboard

-- ============================================================
-- types/index.ts
-- ============================================================

/-- The seven sky conditions from `types/index.ts`. -/
inductive SkyCondition where
  | clear
  | cloudy
  | overcast
  | rain
  | snow
  | thunder
  | fog
deriving DecidableEq, Repr

open SkyCondition

/-- `weatherCodeToSkyCondition` from `types/index.ts`: WMO weather code
(possibly `undefined`) to sky condition. -/
def weatherCodeToSkyCondition : Option ℚ → SkyCondition
  | none => .clear
  | some code =>
    if code ≤ 1 then .clear
    else if code = 2 then .cloudy
    else if code = 3 then .overcast
    else if 45 ≤ code ∧ code ≤ 48 then .fog
    else if 51 ≤ code ∧ code ≤ 67 then .rain
    else if 71 ≤ code ∧ code ≤ 77 then .snow
    else if 80 ≤ code ∧ code ≤ 82 then .rain
    else if 95 ≤ code then .thunder
    else .clear

-- ============================================================
-- lib/solar.ts
-- ============================================================

/-- `TO_RAD = Math.PI / 180` from `lib/solar.ts`. -/
noncomputable def TO_RAD : ℝ := Real.pi / 180

/-- `TO_DEG = 180 / Math.PI` from `lib/solar.ts`. -/
noncomputable def TO_DEG : ℝ := 180 / Real.pi

/-- The raw (unclamped) `sinAlt` expression of `calcSolarAltitude` in
`lib/solar.ts`, including the solar declination and hour angle. -/
noncomputable def sinAltRaw (latitude dayOfYear hourFloat : ℝ) : ℝ :=
  let declination := 23.45 * Real.sin (TO_RAD * (360 / 365) * (dayOfYear - 81))
  let hourAngle := (hourFloat - 12) * 15
  Real.sin (TO_RAD * latitude) * Real.sin (TO_RAD * declination) +
    Real.cos (TO_RAD * latitude) * Real.cos (TO_RAD * declination) *
      Real.cos (TO_RAD * hourAngle)

/-- The clamped argument `Math.max(-1, Math.min(1, sinAlt))` that
`calcSolarAltitude` passes to `Math.asin`. -/
noncomputable def asinArgument (latitude dayOfYear hourFloat : ℝ) : ℝ :=
  max (-1) (min 1 (sinAltRaw latitude dayOfYear hourFloat))

/-- `calcSolarAltitude` from `lib/solar.ts`: solar altitude in degrees. -/
noncomputable def calcSolarAltitude (latitude dayOfYear hourFloat : ℝ) : ℝ :=
  TO_DEG * Real.arcsin (asinArgument latitude dayOfYear hourFloat)

/-- `altitudeToSkyPhase` from `lib/solar.ts`: altitude (degrees) to a sky
phase in `[0,1]`. -/
def altitudeToSkyPhase (altitude : ℚ) : ℚ :=
  if altitude ≤ -12 then 0
  else if altitude ≥ 30 then 1
  else (altitude + 12) / 42

-- ============================================================
-- components/SkyBackground.tsx : palettes and interpolation
-- ============================================================

/-- An RGB color; the three channels of a parsed `#rrggbb` hex string. -/
structure RGB where
  r : ℕ
  g : ℕ
  b : ℕ
deriving DecidableEq, Repr

/-- The four gradient stops of a `Palette` (top to bottom). -/
structure Palette4 where
  c0 : RGB
  c1 : RGB
  c2 : RGB
  c3 : RGB
deriving DecidableEq, Repr

/-- A `PaletteEntry` from `SkyBackground.tsx`: a phase with four colors. -/
structure PaletteEntry where
  phase : ℚ
  colors : Palette4
deriving DecidableEq, Repr

/-- Abbreviation for building a palette entry from twelve hex channels. -/
def pe (phase : ℚ) (a0 a1 a2 b0 b1 b2 c0 c1 c2 d0 d1 d2 : ℕ) : PaletteEntry :=
  ⟨phase, ⟨⟨a0, a1, a2⟩, ⟨b0, b1, b2⟩, ⟨c0, c1, c2⟩, ⟨d0, d1, d2⟩⟩⟩

/-- `CONDITION_PALETTES` from `SkyBackground.tsx` (final revision): the
hand-authored keyframe table, hex colors transcribed channelwise. -/
def CONDITION_PALETTES : SkyCondition → List PaletteEntry
  | .clear =>
    [pe 0    0x05 0x08 0x20  0x10 0x08 0x3a  0x08 0x0e 0x38  0x05 0x0a 0x22,
     pe 0.15 0x0a 0x10 0x40  0x15 0x10 0x4a  0x1a 0x20 0x60  0x15 0x18 0x45,
     pe 0.25 0x1a 0x1a 0x50  0x30 0x25 0x60  0x50 0x2e 0x6a  0x70 0x35 0x60,
     pe 0.33 0x2a 0x20 0x55  0x4a 0x30 0x68  0x8a 0x45 0x60  0xd4 0x6a 0x50,
     pe 0.42 0x3a 0x40 0x80  0x5a 0x70 0xb0  0xc0 0x88 0x50  0xe8 0xa0 0x40,
     pe 0.55 0x20 0x60 0xc0  0x40 0x88 0xe0  0x70 0xa8 0xf0  0xa0 0xc8 0xff,
     pe 1    0x1a 0x6d 0xd4  0x3a 0x8e 0xe8  0x6a 0xb4 0xf7  0xd4 0xed 0xff]
  | .cloudy =>
    [pe 0    0x78 0x7e 0x88  0x8a 0x90 0x98  0x85 0x8b 0x92  0x80 0x88 0x90,
     pe 0.15 0x82 0x8a 0x92  0x94 0x9c 0xa5  0x8e 0x96 0x9e  0x8a 0x90 0x98,
     pe 0.25 0x8a 0x92 0x9a  0x9a 0xa2 0xaa  0x95 0x9d 0xa5  0x90 0x9a 0xa2,
     pe 0.33 0x80 0x88 0x90  0x90 0x98 0x98  0x8a 0x80 0x78  0xb0 0x90 0x70,
     pe 0.42 0x60 0x70 0x90  0x78 0x90 0xa8  0x98 0x88 0x70  0xb8 0x90 0x60,
     pe 0.55 0x40 0x70 0xa8  0x5a 0x88 0xc0  0x7a 0xa0 0xd0  0xa0 0xc0 0xe0,
     pe 1    0x40 0x70 0xa8  0x5a 0x88 0xc0  0x7a 0xa0 0xd0  0xa0 0xc0 0xe0]
  | .overcast =>
    [pe 0    0x98 0xa0 0xa8  0xa8 0xb0 0xb8  0xa2 0xaa 0xb0  0x9a 0xa2 0xaa,
     pe 0.15 0xa0 0xa8 0xb0  0xb0 0xb8 0xc0  0xaa 0xb2 0xb8  0xa2 0xaa 0xb2,
     pe 0.25 0xa5 0xad 0xb5  0xb5 0xbd 0xc5  0xb0 0xb8 0xc0  0xa8 0xb0 0xb8,
     pe 0.33 0x88 0x90 0x98  0x98 0xa0 0xa8  0x92 0x9a 0xa0  0x8a 0x92 0x98,
     pe 0.42 0x65 0x75 0x85  0x78 0x88 0x98  0x85 0x90 0x98  0x90 0x98 0xa0,
     pe 0.55 0x55 0x68 0x78  0x6a 0x7e 0x90  0x7e 0x90 0xa0  0x98 0xa8 0xb5,
     pe 1    0x55 0x68 0x78  0x6a 0x7e 0x90  0x7e 0x90 0xa0  0x98 0xa8 0xb5]
  | .rain =>
    [pe 0    0x08 0x0c 0x14  0x10 0x18 0x22  0x0c 0x14 0x18  0x0a 0x10 0x15,
     pe 0.15 0x0e 0x15 0x20  0x18 0x22 0x2e  0x15 0x20 0x28  0x12 0x1a 0x22,
     pe 0.25 0x18 0x20 0x28  0x25 0x2e 0x3a  0x2a 0x34 0x40  0x30 0x38 0x40,
     pe 0.33 0x22 0x2e 0x38  0x33 0x40 0x48  0x3e 0x48 0x4e  0x48 0x50 0x50,
     pe 0.42 0x2a 0x35 0x40  0x3a 0x45 0x50  0x48 0x50 0x58  0x50 0x58 0x60,
     pe 0.55 0x3a 0x45 0x55  0x4d 0x58 0x68  0x5a 0x65 0x75  0x6e 0x78 0x88,
     pe 1    0x3a 0x45 0x55  0x4d 0x58 0x68  0x5a 0x65 0x75  0x6e 0x78 0x88]
  | .snow =>
    [pe 0    0x20 0x25 0x35  0x2e 0x35 0x45  0x28 0x30 0x40  0x25 0x2e 0x38,
     pe 0.15 0x28 0x30 0x40  0x35 0x3e 0x4a  0x32 0x3a 0x48  0x2e 0x35 0x40,
     pe 0.25 0x35 0x3c 0x4a  0x45 0x4c 0x58  0x50 0x58 0x60  0x5a 0x62 0x68,
     pe 0.33 0x45 0x4d 0x5a  0x58 0x60 0x68  0x65 0x6d 0x75  0x75 0x80 0x88,
     pe 0.42 0x55 0x60 0x70  0x68 0x70 0x80  0x78 0x80 0x88  0x8a 0x90 0x98,
     pe 0.55 0x78 0x88 0xa0  0x8f 0xa0 0xb8  0xa5 0xb5 0xc8  0xc0 0xcd 0xd8,
     pe 1    0x78 0x88 0xa0  0x8f 0xa0 0xb8  0xa5 0xb5 0xc8  0xc0 0xcd 0xd8]
  | .thunder =>
    [pe 0    0x06 0x08 0x10  0x0e 0x10 0x20  0x0a 0x0c 0x15  0x08 0x08 0x0e,
     pe 0.15 0x0c 0x0e 0x18  0x15 0x18 0x28  0x12 0x15 0x20  0x0e 0x10 0x18,
     pe 0.25 0x14 0x18 0x20  0x1e 0x24 0x30  0x1c 0x20 0x28  0x18 0x1c 0x25,
     pe 0.33 0x1c 0x22 0x30  0x2a 0x30 0x40  0x2e 0x35 0x40  0x32 0x38 0x40,
     pe 0.42 0x22 0x2a 0x35  0x30 0x3a 0x48  0x38 0x40 0x50  0x40 0x48 0x55,
     pe 0.55 0x2a 0x30 0x40  0x3d 0x45 0x55  0x4a 0x52 0x65  0x55 0x5e 0x70,
     pe 1    0x2a 0x30 0x40  0x3d 0x45 0x55  0x4a 0x52 0x65  0x55 0x5e 0x70]
  | .fog =>
    [pe 0    0x22 0x26 0x30  0x2e 0x32 0x38  0x2a 0x2e 0x35  0x26 0x2a 0x30,
     pe 0.15 0x2a 0x30 0x38  0x36 0x3c 0x42  0x34 0x38 0x40  0x30 0x34 0x38,
     pe 0.25 0x38 0x3e 0x45  0x48 0x4e 0x55  0x50 0x55 0x58  0x58 0x5e 0x62,
     pe 0.33 0x48 0x4e 0x55  0x5a 0x60 0x68  0x62 0x68 0x70  0x70 0x78 0x80,
     pe 0.42 0x58 0x60 0x68  0x6a 0x72 0x78  0x75 0x7c 0x85  0x86 0x8e 0x95,
     pe 0.55 0x6a 0x75 0x85  0x80 0x8a 0x98  0x95 0xa0 0xab  0xb0 0xb8 0xc2,
     pe 1    0x6a 0x75 0x85  0x80 0x8a 0x98  0x95 0xa0 0xab  0xb0 0xb8 0xc2]

/-- JavaScript `Math.round`: round half toward positive infinity. -/
def jsRound (x : ℚ) : ℤ :=
  Int.floor (x + 1 / 2)

/-- The channel clamp of `toHex` in `SkyBackground.tsx`:
`Math.max(0, Math.min(255, v))`. -/
def clampChannel (v : ℤ) : ℕ :=
  (max 0 (min 255 v)).toNat

/-- `lerpColor` from `SkyBackground.tsx`: channelwise
`round(ca + (cb - ca) * t)` followed by the `toHex` clamp. -/
def lerpColor (a b : RGB) (t : ℚ) : RGB :=
  ⟨clampChannel (jsRound ((a.r : ℚ) + ((b.r : ℚ) - (a.r : ℚ)) * t)),
   clampChannel (jsRound ((a.g : ℚ) + ((b.g : ℚ) - (a.g : ℚ)) * t)),
   clampChannel (jsRound ((a.b : ℚ) + ((b.b : ℚ) - (a.b : ℚ)) * t))⟩

/-- The bracket-finding loop of `getSkyGradientByPhase`: the first adjacent
pair `(palettes[i], palettes[i+1])` with
`palettes[i].phase ≤ clamped ≤ palettes[i+1].phase`, if any. -/
def findBracket (clamped : ℚ) : List PaletteEntry → Option (PaletteEntry × PaletteEntry)
  | a :: b :: rest =>
    if a.phase ≤ clamped ∧ clamped ≤ b.phase then some (a, b)
    else findBracket clamped (b :: rest)
  | _ => none

/-- A default palette entry (only used for the empty-list corner that the
source's `palettes[0]` / `palettes[palettes.length - 1]` never hits). -/
def defaultEntry : PaletteEntry :=
  ⟨0, ⟨⟨0, 0, 0⟩, ⟨0, 0, 0⟩, ⟨0, 0, 0⟩, ⟨0, 0, 0⟩⟩⟩

/-- `getSkyGradientByPhase` from `SkyBackground.tsx`, returning the four
interpolated gradient-stop colors (the source then formats them into a
`linear-gradient(180deg, ...)` string at fixed stops 0/30/65/100%). -/
def getSkyGradientByPhase (condition : SkyCondition) (skyPhase : ℚ) : Palette4 :=
  let palettes := CONDITION_PALETTES condition
  let clamped := max 0 (min 1 skyPhase)
  let bracket :=
    match findBracket clamped palettes with
    | some p => p
    | none => (palettes.headD defaultEntry, palettes.getLastD defaultEntry)
  let lower := bracket.1
  let upper := bracket.2
  let range := upper.phase - lower.phase
  let t := if range > 0 then (clamped - lower.phase) / range else 0
  ⟨lerpColor lower.colors.c0 upper.colors.c0 t,
   lerpColor lower.colors.c1 upper.colors.c1 t,
   lerpColor lower.colors.c2 upper.colors.c2 t,
   lerpColor lower.colors.c3 upper.colors.c3 t⟩

-- ============================================================
-- components/SkyBackground.tsx : effects and adjustment
-- ============================================================

/-- The record returned by `getOverlayConfig` in `SkyBackground.tsx`. -/
structure OverlayConfig where
  rainOpacity : ℚ
  snowOpacity : ℚ
  fogOpacity : ℚ
  starsOpacity : ℚ
deriving DecidableEq, Repr

/-- `getOverlayConfig` from `SkyBackground.tsx` (final revision,
clear-only stars). -/
def getOverlayConfig (condition : SkyCondition) (skyPhase precipitation : ℚ) :
    OverlayConfig :=
  let hasRain := precipitation > 0
  let starsBase : ℚ := if condition = .clear then 0.6 else 0
  let starsOpacity := if skyPhase < 0.25 then starsBase * (1 - skyPhase / 0.25) else 0
  { rainOpacity :=
      if hasRain then
        if condition = .rain then 0.35 else if condition = .thunder then 0.45 else 0
      else 0
    snowOpacity := if condition = .snow then 0.4 else 0
    fogOpacity := if condition = .fog then 0.35 else 0
    starsOpacity := starsOpacity }

/-- `getRainSpeed` from `SkyBackground.tsx`: animation periods of the two
rain layers, by precipitation (mm); `undefined` defaults to 0. -/
def getRainSpeed (precipitation : Option ℚ) : String × String :=
  let p := precipitation.getD 0
  if p > 5 then ("0.12s", "0.17s")
  else if p > 2 then ("0.25s", "0.35s")
  else ("0.5s", "0.7s")

/-- `adjustConditionByCloudCover` from `SkyBackground.tsx`: overrides the
classified condition by live cloud cover (%) unless the condition is a
precipitation/fog/thunder class. -/
def adjustConditionByCloudCover (condition : SkyCondition) (cloudCover : ℚ) :
    SkyCondition :=
  if condition = .rain ∨ condition = .snow ∨ condition = .thunder ∨ condition = .fog then
    condition
  else if cloudCover ≥ 80 then .overcast
  else if cloudCover ≥ 50 then .cloudy
  else if cloudCover ≥ 20 then .cloudy
  else .clear

-- ============================================================
-- components/SkyBackground.tsx : effective-input resolution
-- ============================================================

/-- `HoveredPointInfo` as consumed by the final `SkyBackground` revision:
`weatherCode` and `hour` are required, `cloudCover` and `precipitation`
are optional fields. -/
structure HoveredPointInfo where
  weatherCode : ℚ
  hour : ℚ
  cloudCover : Option ℚ
  precipitation : Option ℚ

/-- `SkyBackgroundProps` from `SkyBackground.tsx`: the live inputs plus the
optional hovered point. -/
structure SkyBackgroundProps where
  weatherCode : Option ℚ
  hoveredPoint : Option HoveredPointInfo
  precipitation : Option ℚ
  cloudCover : Option ℚ
  latitude : ℚ

/-- `effectiveCode = hoveredPoint?.weatherCode ?? weatherCode`. -/
def effectiveCode (p : SkyBackgroundProps) : Option ℚ :=
  match p.hoveredPoint with
  | some h => some h.weatherCode
  | none => p.weatherCode

/-- `effectiveHour = hoveredPoint?.hour`. -/
def effectiveHour (p : SkyBackgroundProps) : Option ℚ :=
  p.hoveredPoint.map (fun h => h.hour)

/-- `effectiveCloudCover = hoveredPoint?.cloudCover ?? cloudCover ?? 0`. -/
def effectiveCloudCover (p : SkyBackgroundProps) : ℚ :=
  (((p.hoveredPoint.bind (fun h => h.cloudCover)).orElse
      (fun _ => p.cloudCover)).getD 0)

/-- `effectivePrecipitation = hoveredPoint?.precipitation ?? precipitation`. -/
def effectivePrecipitation (p : SkyBackgroundProps) : Option ℚ :=
  (p.hoveredPoint.bind (fun h => h.precipitation)).orElse (fun _ => p.precipitation)

/-- `hourFloat = effectiveHour ?? (now.getHours() + now.getMinutes() / 60)`:
the hour the solar computation actually uses, with the wall clock passed
in explicitly as `now`. -/
def hourFloatUsed (p : SkyBackgroundProps) (now : ℚ) : ℚ :=
  (effectiveHour p).getD now

-- ============================================================
-- Helper lemmas
-- ============================================================

theorem skyPhase_nonneg (a : ℚ) : 0 ≤ altitudeToSkyPhase a := by
  unfold altitudeToSkyPhase
  split_ifs <;> linarith

theorem skyPhase_le_one (a : ℚ) : altitudeToSkyPhase a ≤ 1 := by
  unfold altitudeToSkyPhase
  split_ifs <;> linarith

theorem skyPhase_mono (a b : ℚ) (hab : a ≤ b) :
    altitudeToSkyPhase a ≤ altitudeToSkyPhase b := by
  unfold altitudeToSkyPhase
  split_ifs <;> linarith

theorem adjust_not_special (c : SkyCondition) (cc : ℚ)
    (h : ¬(c = .rain ∨ c = .snow ∨ c = .thunder ∨ c = .fog)) :
    adjustConditionByCloudCover c cc =
      if cc ≥ 80 then .overcast
      else if cc ≥ 50 then .cloudy
      else if cc ≥ 20 then .cloudy
      else .clear := by
  unfold adjustConditionByCloudCover
  rw [if_neg h]

-- ============================================================
-- Claim theorems
-- ============================================================

/-- C2: `altitudeToSkyPhase` is the piecewise-linear map (0 below −12°,
1 above 30°, `(altitude + 12) / 42` between), its value is always in
`[0,1]`, it is monotonically non-decreasing, and it takes the values
0, 1 and 1/2 at −20, 50 and 9 respectively. -/
theorem altitudeToSkyPhase_spec (a b : ℚ) (hab : a ≤ b) :
    (a ≤ -12 → altitudeToSkyPhase a = 0) ∧
    (30 ≤ a → altitudeToSkyPhase a = 1) ∧
    (-12 < a → a < 30 → altitudeToSkyPhase a = (a + 12) / 42) ∧
    0 ≤ altitudeToSkyPhase a ∧ altitudeToSkyPhase a ≤ 1 ∧
    altitudeToSkyPhase a ≤ altitudeToSkyPhase b ∧
    altitudeToSkyPhase (-20) = 0 ∧ altitudeToSkyPhase 50 = 1 ∧
    altitudeToSkyPhase 9 = 1 / 2 := by
  refine ⟨?_, ?_, ?_, skyPhase_nonneg a, skyPhase_le_one a, skyPhase_mono a b hab,
    by norm_num [altitudeToSkyPhase], by norm_num [altitudeToSkyPhase],
    by norm_num [altitudeToSkyPhase]⟩ <;>
  · intros
    unfold altitudeToSkyPhase
    split_ifs <;> first | rfl | linarith

/-- Witness for C2 at the concrete pair of altitudes −20 and 50. -/
theorem altitudeToSkyPhase_spec_witness :
    altitudeToSkyPhase 9 = 1 / 2 ∧
    altitudeToSkyPhase (-20) ≤ altitudeToSkyPhase 50 := by
  have h := altitudeToSkyPhase_spec (-20) 50 (by norm_num)
  exact ⟨h.2.2.2.2.2.2.2.2, h.2.2.2.2.2.1⟩

set_option maxHeartbeats 1600000 in
/-- C3: `weatherCodeToSkyCondition` maps codes ≤ 1 to clear, 2 to cloudy,
3 to overcast, 45–48 to fog, 51–67 and 80–82 to rain, 71–77 to snow,
≥ 95 to thunder, and `undefined` or any other code to clear; it is total
by construction. -/
theorem weatherCodeToSkyCondition_spec (code : ℚ) :
    weatherCodeToSkyCondition none = .clear ∧
    (code ≤ 1 → weatherCodeToSkyCondition (some code) = .clear) ∧
    (code = 2 → weatherCodeToSkyCondition (some code) = .cloudy) ∧
    (code = 3 → weatherCodeToSkyCondition (some code) = .overcast) ∧
    (45 ≤ code → code ≤ 48 → weatherCodeToSkyCondition (some code) = .fog) ∧
    (51 ≤ code → code ≤ 67 → weatherCodeToSkyCondition (some code) = .rain) ∧
    (80 ≤ code → code ≤ 82 → weatherCodeToSkyCondition (some code) = .rain) ∧
    (71 ≤ code → code ≤ 77 → weatherCodeToSkyCondition (some code) = .snow) ∧
    (95 ≤ code → weatherCodeToSkyCondition (some code) = .thunder) ∧
    (1 < code → code ≠ 2 → code ≠ 3 → ¬(45 ≤ code ∧ code ≤ 48) →
      ¬(51 ≤ code ∧ code ≤ 67) → ¬(71 ≤ code ∧ code ≤ 77) →
      ¬(80 ≤ code ∧ code ≤ 82) → ¬(95 ≤ code) →
      weatherCodeToSkyCondition (some code) = .clear) := by
  refine ⟨rfl, ?_, ?_, ?_, ?_, ?_, ?_, ?_, ?_, ?_⟩ <;>
  · intros
    simp only [weatherCodeToSkyCondition]
    split_ifs <;>
      first
        | rfl
        | (exfalso; linarith)
        | (exfalso; rcases ‹_ ∧ _› with ⟨hx, hy⟩; linarith)
        | (exfalso; tauto)

/-- Witness for C3 at the concrete codes 96 (thunder) and `undefined`. -/
theorem weatherCodeToSkyCondition_spec_witness :
    weatherCodeToSkyCondition (some 96) = .thunder ∧
    weatherCodeToSkyCondition none = .clear := by
  have h := weatherCodeToSkyCondition_spec 96
  exact ⟨h.2.2.2.2.2.2.2.2.1 (by norm_num), h.1⟩

/-- C4: `adjustConditionByCloudCover` leaves rain, snow, thunder and fog
unchanged for every cloud cover; for clear/cloudy/overcast it returns
overcast when cloud cover ≥ 80, cloudy when 20 ≤ cloud cover < 80, and
clear otherwise; composed with the classifier, code 3 at cloud cover 10
resolves to clear. -/
theorem adjustConditionByCloudCover_spec (cc : ℚ) :
    (∀ c, (c = .rain ∨ c = .snow ∨ c = .thunder ∨ c = .fog) →
      adjustConditionByCloudCover c cc = c) ∧
    (∀ c, (c = .clear ∨ c = .cloudy ∨ c = .overcast) →
      ((80 ≤ cc → adjustConditionByCloudCover c cc = .overcast) ∧
       (20 ≤ cc → cc < 80 → adjustConditionByCloudCover c cc = .cloudy) ∧
       (cc < 20 → adjustConditionByCloudCover c cc = .clear))) ∧
    adjustConditionByCloudCover .rain 90 = .rain ∧
    adjustConditionByCloudCover (weatherCodeToSkyCondition (some 3)) 10 = .clear := by
  refine ⟨?_, ?_, by decide, by decide⟩
  · rintro c (rfl | rfl | rfl | rfl) <;> rfl
  · rintro c (rfl | rfl | rfl) <;>
      refine ⟨fun h80 => ?_, fun h20 h80 => ?_, fun h20 => ?_⟩ <;>
      · rw [adjust_not_special _ _ (by simp)]
        split_ifs <;> first | rfl | linarith

/-- Witness for C4 at cloud covers 85, 90 and 10. -/
theorem adjustConditionByCloudCover_spec_witness :
    adjustConditionByCloudCover .clear 85 = .overcast ∧
    adjustConditionByCloudCover .rain 90 = .rain ∧
    adjustConditionByCloudCover (weatherCodeToSkyCondition (some 3)) 10 = .clear := by
  have h := adjustConditionByCloudCover_spec 85
  exact ⟨(h.2.1 .clear (Or.inl rfl)).1 (by norm_num), h.2.2.1, h.2.2.2⟩

/-- C6: `getRainSpeed` has exactly three tiers: precipitation above 5 mm
gives (0.12s, 0.17s), precipitation in (2, 5] gives (0.25s, 0.35s), and
precipitation at most 2 mm (including 0) gives (0.5s, 0.7s); the input
exactly 2 falls in the slowest tier and 6 in the fastest. -/
theorem getRainSpeed_spec (p : ℚ) :
    (5 < p → getRainSpeed (some p) = ("0.12s", "0.17s")) ∧
    (2 < p → p ≤ 5 → getRainSpeed (some p) = ("0.25s", "0.35s")) ∧
    (p ≤ 2 → getRainSpeed (some p) = ("0.5s", "0.7s")) ∧
    getRainSpeed (some 2) = ("0.5s", "0.7s") ∧
    getRainSpeed (some 6) = ("0.12s", "0.17s") := by
  refine ⟨?_, ?_, ?_, by decide, by decide⟩ <;>
  · intros
    simp only [getRainSpeed, Option.getD_some]
    split_ifs <;> first | rfl | linarith

/-- Witness for C6 at the concrete precipitations 3 and 6. -/
theorem getRainSpeed_spec_witness :
    getRainSpeed (some 3) = ("0.25s", "0.35s") ∧
    getRainSpeed (some 6) = ("0.12s", "0.17s") := by
  have h := getRainSpeed_spec 3
  exact ⟨h.2.1 (by norm_num) (by norm_num), h.2.2.2.2⟩

/-- C7: `getOverlayConfig`'s `rainOpacity` is 0 whenever precipitation is
not strictly positive; for positive precipitation it is 0.35 for rain,
0.45 for thunder and 0 for every other condition; and it never depends on
the sky phase. -/
theorem getOverlayConfig_rainOpacity_spec (c : SkyCondition) (phase phase2 p : ℚ) :
    (p ≤ 0 → (getOverlayConfig c phase p).rainOpacity = 0) ∧
    (0 < p → (getOverlayConfig .rain phase p).rainOpacity = 0.35) ∧
    (0 < p → (getOverlayConfig .thunder phase p).rainOpacity = 0.45) ∧
    (0 < p → c ≠ .rain → c ≠ .thunder →
      (getOverlayConfig c phase p).rainOpacity = 0) ∧
    (getOverlayConfig c phase p).rainOpacity =
      (getOverlayConfig c phase2 p).rainOpacity ∧
    (getOverlayConfig .rain phase 0).rainOpacity = 0 ∧
    (getOverlayConfig .rain phase 3).rainOpacity = 0.35 := by
  have hproj : ∀ (c' : SkyCondition) (ph pr : ℚ),
      (getOverlayConfig c' ph pr).rainOpacity =
        if pr > 0 then
          if c' = .rain then 0.35 else if c' = .thunder then 0.45 else 0
        else 0 := fun _ _ _ => rfl
  refine ⟨?_, ?_, ?_, ?_, ?_, ?_, ?_⟩
  · intro hp
    rw [hproj, if_neg (by linarith)]
  · intro hp
    rw [hproj, if_pos hp, if_pos rfl]
  · intro hp
    rw [hproj, if_pos hp, if_neg (by decide), if_pos rfl]
  · intro hp hr ht
    rw [hproj, if_pos hp, if_neg hr, if_neg ht]
  · rw [hproj, hproj]
  · rw [hproj, if_neg (by norm_num)]
  · rw [hproj, if_pos (by norm_num), if_pos rfl]

/-- Witness for C7 at condition snow, phases 0.2 and 0.8, precipitation 3. -/
theorem getOverlayConfig_rainOpacity_spec_witness :
    (getOverlayConfig .snow 0.2 3).rainOpacity = 0 ∧
    (getOverlayConfig .rain 0.2 3).rainOpacity = 0.35 := by
  have h := getOverlayConfig_rainOpacity_spec .snow 0.2 0.8 3
  exact ⟨h.2.2.2.1 (by norm_num) (by decide) (by decide), h.2.2.2.2.2.2⟩

/-- C9: for each of the seven sky conditions the keyframe table is ordered
strictly ascending by phase, every phase lies in [0,1], the first phase is
exactly 0 and the last exactly 1. -/
theorem conditionPalettes_invariant (c : SkyCondition) :
    List.Chain' (fun a b => a.phase < b.phase) (CONDITION_PALETTES c) ∧
    ((CONDITION_PALETTES c).all fun e => decide (0 ≤ e.phase ∧ e.phase ≤ 1)) = true ∧
    ((CONDITION_PALETTES c).headD defaultEntry).phase = 0 ∧
    ((CONDITION_PALETTES c).getLastD defaultEntry).phase = 1 := by
  cases c <;>
    refine ⟨?_, ?_, rfl, rfl⟩ <;>
      norm_num [CONDITION_PALETTES, pe, List.chain'_cons, List.all_cons]

/-- C5: at the phase boundaries the interpolated gradient reproduces the
keyframe table exactly: phase 0 yields the first keyframe's four colors
and phase 1 the last keyframe's four colors, with no rounding error. -/
theorem getSkyGradientByPhase_boundary (c : SkyCondition) :
    getSkyGradientByPhase c 0 = ((CONDITION_PALETTES c).headD defaultEntry).colors ∧
    getSkyGradientByPhase c 1 = ((CONDITION_PALETTES c).getLastD defaultEntry).colors := by
  cases c <;> constructor
  all_goals
    norm_num [getSkyGradientByPhase, CONDITION_PALETTES, pe, findBracket,
      lerpColor, jsRound, clampChannel, defaultEntry]
  all_goals omega

/-- C8: the sky renderer resolves every effective field with hovered
strictly overriding live: hovered weather code/hour always win when a
hovered point is present; a hovered point without cloud cover or
precipitation falls back to the live value for that field; without a
hovered point, solar computations use the wall clock and cloud cover
defaults through live to 0. -/
theorem effectiveInputs_spec (p : SkyBackgroundProps) (now : ℚ) :
    (∀ hp, p.hoveredPoint = some hp →
      effectiveCode p = some hp.weatherCode ∧
      effectiveHour p = some hp.hour ∧
      hourFloatUsed p now = hp.hour ∧
      (∀ v, hp.cloudCover = some v → effectiveCloudCover p = v) ∧
      (hp.cloudCover = none → effectiveCloudCover p = p.cloudCover.getD 0) ∧
      (∀ v, hp.precipitation = some v → effectivePrecipitation p = some v) ∧
      (hp.precipitation = none → effectivePrecipitation p = p.precipitation)) ∧
    (p.hoveredPoint = none →
      effectiveCode p = p.weatherCode ∧
      effectiveHour p = none ∧
      hourFloatUsed p now = now ∧
      effectiveCloudCover p = p.cloudCover.getD 0 ∧
      effectivePrecipitation p = p.precipitation) := by
  obtain ⟨wc, hov, pr, cc, lat⟩ := p
  constructor
  · rintro ⟨hwc, hh, hcc, hpr⟩ rfl
    refine ⟨rfl, rfl, rfl, ?_, ?_, ?_, ?_⟩
    · rintro v rfl
      rfl
    · rintro rfl
      rfl
    · rintro v rfl
      rfl
    · rintro rfl
      rfl
  · rintro rfl
    exact ⟨rfl, rfl, rfl, rfl, rfl⟩

/-- Witness for C8: a hovered point carrying only weather code and hour,
over live cloud cover 55 and live precipitation 1. -/
theorem effectiveInputs_spec_witness :
    effectiveCode ⟨some 3, some ⟨2, 13, none, none⟩, some 1, some 55, 35⟩ = some 2 ∧
    hourFloatUsed ⟨some 3, some ⟨2, 13, none, none⟩, some 1, some 55, 35⟩ 21 = 13 ∧
    effectiveCloudCover ⟨some 3, some ⟨2, 13, none, none⟩, some 1, some 55, 35⟩ =
      (some (55 : ℚ)).getD 0 ∧
    effectivePrecipitation ⟨some 3, some ⟨2, 13, none, none⟩, some 1, some 55, 35⟩ =
      some 1 := by
  have h := (effectiveInputs_spec ⟨some 3, some ⟨2, 13, none, none⟩, some 1, some 55, 35⟩ 21).1
    ⟨2, 13, none, none⟩ rfl
  exact ⟨h.1, h.2.2.1, h.2.2.2.2.1 rfl, h.2.2.2.2.2.2 rfl⟩

/-- C1: for every latitude in [−90, 90], day-of-year in [1, 366] and any
real hour, the argument `calcSolarAltitude` passes to `asin` is clamped
into [−1, 1], and the resulting altitude is a well-defined real number of
degrees lying in [−90, 90]. -/
theorem calcSolarAltitude_total (latitude dayOfYear hourFloat : ℝ)
    (hlat₁ : -90 ≤ latitude) (hlat₂ : latitude ≤ 90)
    (hday₁ : 1 ≤ dayOfYear) (hday₂ : dayOfYear ≤ 366) :
    -1 ≤ asinArgument latitude dayOfYear hourFloat ∧
    asinArgument latitude dayOfYear hourFloat ≤ 1 ∧
    -90 ≤ calcSolarAltitude latitude dayOfYear hourFloat ∧
    calcSolarAltitude latitude dayOfYear hourFloat ≤ 90 := by
  have h1 : -1 ≤ asinArgument latitude dayOfYear hourFloat := le_max_left _ _
  have h2 : asinArgument latitude dayOfYear hourFloat ≤ 1 :=
    max_le (by norm_num) (min_le_left _ _)
  have hπ : (0 : ℝ) < Real.pi := Real.pi_pos
  have hdeg : (0 : ℝ) < TO_DEG := by
    unfold TO_DEG
    positivity
  have harc₁ : -(Real.pi / 2) ≤ Real.arcsin (asinArgument latitude dayOfYear hourFloat) :=
    Real.neg_pi_div_two_le_arcsin _
  have harc₂ : Real.arcsin (asinArgument latitude dayOfYear hourFloat) ≤ Real.pi / 2 :=
    Real.arcsin_le_pi_div_two _
  have hlow := mul_le_mul_of_nonneg_left harc₁ hdeg.le
  have hhigh := mul_le_mul_of_nonneg_left harc₂ hdeg.le
  have heqlow : TO_DEG * (-(Real.pi / 2)) = -90 := by
    unfold TO_DEG
    field_simp
    ring
  have heqhigh : TO_DEG * (Real.pi / 2) = 90 := by
    unfold TO_DEG
    field_simp
    ring
  refine ⟨h1, h2, ?_, ?_⟩
  · unfold calcSolarAltitude
    rw [heqlow] at hlow
    linarith
  · unfold calcSolarAltitude
    rw [heqhigh] at hhigh
    linarith

/-- Witness for C1 at latitude 35, day 100, hour 14. -/
theorem calcSolarAltitude_total_witness :
    -1 ≤ asinArgument 35 100 14 ∧ asinArgument 35 100 14 ≤ 1 ∧
    -90 ≤ calcSolarAltitude 35 100 14 ∧ calcSolarAltitude 35 100 14 ≤ 90 :=
  calcSolarAltitude_total 35 100 14 (by norm_num) (by norm_num) (by norm_num)
    (by norm_num)

end WeatherDashboard
